import Mathlib

/-!
Shallow embedding of the chat/session protocol core of the NLP_TO_SQL
frontend (`components/ChatBot` in the repository slice): the transcript
data model, the query dispatcher (`handleSendMessage`), the pagination
coordinator (`handlePageChange`), and the session lifecycle controller
(`loadSessionMessages` / `fetchSessionInfo` / `handleSessionSelect`).

Asynchronous boundary calls (`executeQuery`, `getPaginatedResults`,
`createSession`, `getSessionMessages`, `getSessionInfo`) are modelled as
explicit `Except` outcomes supplied to each operation; the impure
`Date.now()` / `Math.random()` calls are modelled as explicit numeric /
string oracles.  JavaScript truthiness on optional strings (`a || b`)
is modelled by `jsOr` / `truthyStr`.
-/

/-- Rows returned by the backend are opaque records; their content never
matters to the protocol, only their identity. -/
abbrev Row := List String

/-- `PaginationInfo` interface (ChatBot). -/
structure PaginationInfo where
  table_id : String
  current_page : Nat
  total_pages : Nat
  total_rows : Nat
  page_size : Nat
  has_next : Option Bool := none
  has_prev : Option Bool := none
deriving DecidableEq

/-- `TableInfo` interface (ChatBot): one named table of an analysis result. -/
structure TableInfo where
  name : String
  description : String
  sql : String
  results : List Row
  row_count : Nat
  table_id : Option String := none
  pagination : Option PaginationInfo := none
deriving DecidableEq

/-- The `sqlResult` payload of a `ChatMessage`. -/
structure SqlResultData where
  sql : String
  data : Option (List Row) := none
  error : Option String := none
  pagination : Option PaginationInfo := none
  table_id : Option String := none
deriving DecidableEq

/-- The `analysisResult` payload of a `ChatMessage`.  The `analysis_type`
discriminant is kept as a raw string ("causal" / "comparative"). -/
structure AnalysisResultData where
  tables : List TableInfo
  analysis_type : String
deriving DecidableEq

/-- `ChatMessage` interface (ChatBot): one transcript turn.  `query_type`
is kept as the raw runtime string (the TypeScript union type is erased at
runtime, and the code stores whatever the resolver sent). -/
structure ChatMessage where
  id : String
  isUser : Bool
  text : String
  timestamp : Nat
  query_type : Option String := none
  sqlResult : Option SqlResultData := none
  analysisResult : Option AnalysisResultData := none
deriving DecidableEq

/-- `PaginationState` interface (ChatBot). -/
structure PaginationState where
  messageId : String
  tableId : String
  currentPage : Nat
deriving DecidableEq

/-- The session-info object returned by `getSessionInfo`; only the fields
the component reads are modelled (`info.error` truthiness, `description`). -/
structure SessionInfo where
  error : Bool := false
  description : String := ""
  db_name : String := ""
deriving DecidableEq

/-- The component state owned by the protocol core: the transcript plus
the session / pagination bookkeeping (`useState` variables of ChatBot). -/
structure ChatState where
  messages : List ChatMessage
  sessionId : Option String := none
  sessionInfo : Option SessionInfo := none
  paginationState : Option PaginationState := none
deriving DecidableEq

/-- JavaScript truthiness of an optional string: `undefined` and the
empty string are falsy. -/
def truthyStr : Option String → Bool
  | some s => s ≠ ""
  | none => false

/-- JavaScript `a || b` on an optional string with a string default. -/
def jsOr (a : Option String) (b : String) : String :=
  match a with
  | some s => if s = "" then b else s
  | none => b

/-- `input.trim()`: strip whitespace from both ends (executable model of
the JS string trim, recursing structurally over the character list). -/
def jsTrim (s : String) : String :=
  String.mk (((s.data.dropWhile Char.isWhitespace).reverse.dropWhile Char.isWhitespace).reverse)

/-- The synthetic welcome turn (id "welcome") used for the initial
transcript and whenever the transcript is reset. -/
def welcomeMessage (now : Nat) : ChatMessage :=
  { id := "welcome", isUser := false,
    text := "Hello! I can help you query your database using natural language. How can I help you today?",
    timestamp := now }

/-- Initial ChatBot state: a single welcome turn, no session. -/
def initialState : ChatState :=
  { messages := [welcomeMessage 0] }

/-! ## Pagination coordinator (`handlePageChange`) -/

/-- Successful response of `getPaginatedResults(sessionId, tableId, page)`:
`{ data, pagination }`. -/
structure PagResponse where
  data : List Row
  pagination : Option PaginationInfo := none
deriving DecidableEq

/-- `const currentTableId = result.pagination?.table_id || tableId`:
the response table id supersedes the caller's only when the response
carries a pagination object with a truthy (non-empty) `table_id`. -/
def currentTableIdOf (resp : PagResponse) (tableId : String) : String :=
  match resp.pagination with
  | some p => if p.table_id = "" then tableId else p.table_id
  | none => tableId

/-- The per-table updater inside the `analysisResult` branch of
`handlePageChange`: only the table whose `table_id` equals the requested
`tableId` gets the new rows / pagination / id. -/
def updateTableForPage (tableId : String) (resp : PagResponse) (table : TableInfo) : TableInfo :=
  if table.table_id = some tableId then
    { table with results := resp.data, pagination := resp.pagination,
                 table_id := some (currentTableIdOf resp tableId) }
  else table

/-- The per-message updater of the success branch of `handlePageChange`
(`setMessages(prev => prev.map( ... ))`). -/
def updateMessageForPage (messageId tableId : String) (resp : PagResponse)
    (msg : ChatMessage) : ChatMessage :=
  if msg.id = messageId then
    match msg.sqlResult with
    | some sr =>
        let newSr : SqlResultData :=
          { sr with
            data := some resp.data
            pagination := resp.pagination
            table_id := some (currentTableIdOf resp tableId) }
        { msg with sqlResult := some newSr }
    | none =>
        match msg.analysisResult with
        | some ar =>
            let newAr : AnalysisResultData :=
              { ar with tables := ar.tables.map (updateTableForPage tableId resp) }
            { msg with analysisResult := some newAr }
        | none => msg
  else msg

/-- `handlePageChange(messageId, tableId, newPage)` with the backend
outcome supplied explicitly.  The guard `if (!sessionId || !tableId)`
rejects before any call; on success the transcript is mapped in place and
the pagination state recorded; on failure one error turn is appended. -/
def handlePageChange (st : ChatState) (messageId tableId : String) (newPage : Nat)
    (outcome : Except String PagResponse) (now : Nat) : ChatState :=
  if truthyStr st.sessionId = false ∨ tableId = "" then st
  else
    match outcome with
    | Except.ok resp =>
        let newPagState : PaginationState :=
          { messageId := messageId
            tableId := currentTableIdOf resp tableId
            currentPage := newPage }
        { st with
          messages := st.messages.map (updateMessageForPage messageId tableId resp)
          paginationState := some newPagState }
    | Except.error emsg =>
        { st with messages := st.messages ++
            [{ id := "pagination-error-" ++ toString now, isUser := false,
               text := "Error loading page " ++ toString newPage ++ ": " ++ emsg,
               timestamp := now }] }

/-! ## Query dispatcher (`handleSendMessage`) -/

/-- The session object returned by `createSession` (only the fields the
component reads). -/
structure SessionData where
  sid : String
  name : String
deriving DecidableEq

/-- The resolver response of `executeQuery`: a flat record interpreted by
the `query_type` discriminant (kept as the raw runtime string). -/
structure ExecuteQueryResult where
  query_type : Option String := none
  text : Option String := none
  message : Option String := none
  sql : Option String := none
  data : Option (List Row) := none
  error : Option String := none
  pagination : Option PaginationInfo := none
  table_id : Option String := none
  tables : List TableInfo := []
  analysis_type : String := ""
deriving DecidableEq

/-- Index-threaded map: the source maps over `result.tables` calling the
impure `Date.now()` / `Math.random()` once per iteration, so the oracles
are consumed positionally. -/
def mapWithIdx (f : Nat → TableInfo → TableInfo) : Nat → List TableInfo → List TableInfo
  | _, [] => []
  | i, t :: ts => f i t :: mapWithIdx f (i + 1) ts

/-- One locally synthesized table id:
`table-` + `Date.now()` + `-` + a `Math.random()` suffix. -/
def synthId (now : Nat) (suffix : String) : String :=
  "table-" ++ toString now ++ "-" ++ suffix

/-- `{...table, table_id: table.table_id || synthesized, pagination: table.pagination}`
from the `analysis` branch; `nows i` / `sufs i` are the `Date.now()` /
`Math.random().toString(36).substring(2, 9)` values of iteration `i`. -/
def withTableId (nows : Nat → Nat) (sufs : Nat → String) (i : Nat) (t : TableInfo) : TableInfo :=
  { t with table_id := some (jsOr t.table_id (synthId (nows i) (sufs i))) }

/-- Build the finalized assistant turn (`botMessage`) from a successful
resolver response: text fallback, discriminant stored verbatim, the
payload attached according to the `sql` / `analysis` branches. -/
def finalizeBotMessage (result : ExecuteQueryResult) (now : Nat)
    (nows : Nat → Nat) (sufs : Nat → String) : ChatMessage :=
  let responseMessage := jsOr result.text (jsOr result.message "Query executed successfully.")
  let base : ChatMessage :=
    { id := "response-" ++ toString now
      isUser := false
      text := responseMessage
      timestamp := now
      query_type := result.query_type }
  if result.query_type = some "sql" then
    let sqlRes : SqlResultData :=
      { sql := jsOr result.sql ""
        data := result.data
        error := result.error
        pagination := result.pagination
        table_id := result.table_id }
    { base with sqlResult := some sqlRes }
  else if result.query_type = some "analysis" then
    let tablesWithIds := mapWithIdx (withTableId nows sufs) 0 result.tables
    let anaRes : AnalysisResultData :=
      { tables := tablesWithIds, analysis_type := result.analysis_type }
    { base with analysisResult := some anaRes }
  else base

/-- Apply the outcome of `executeQuery`: append the finalized assistant
turn on success, or one error turn on failure
(`Error: ${error.message || 'Failed to execute query'}`). -/
def applyQueryOutcome (queryOutcome : Except String ExecuteQueryResult) (now : Nat)
    (nows : Nat → Nat) (sufs : Nat → String) (st : ChatState) : ChatState :=
  match queryOutcome with
  | Except.ok result =>
      { st with messages := st.messages ++ [finalizeBotMessage result now nows sufs] }
  | Except.error emsg =>
      { st with messages := st.messages ++
          [{ id := "error-" ++ toString now, isUser := false,
             text := "Error: " ++ jsOr (some emsg) "Failed to execute query",
             timestamp := now }] }

/-- `handleSendMessage` (the `submit` operation): guard on the trimmed
input, append the user turn, auto-create a session when none is active
and a workspace is connected, then dispatch to the resolver.  The
`createOutcome` / `queryOutcome` arguments are the settled values of the
two boundary calls; `now` is `Date.now()` for turn ids and timestamps. -/
def handleSendMessage (workspaceId : Option String)
    (createOutcome : Except String SessionData)
    (queryOutcome : Except String ExecuteQueryResult)
    (now : Nat) (nows : Nat → Nat) (sufs : Nat → String)
    (st : ChatState) (input : String) : ChatState :=
  if jsTrim input = "" then st
  else
    let userMessage : ChatMessage :=
      { id := toString now, isUser := true, text := input, timestamp := now }
    let st1 := { st with messages := st.messages ++ [userMessage] }
    if truthyStr st.sessionId = false ∧ truthyStr workspaceId = true then
        match createOutcome with
        | Except.error _ =>
            { st1 with messages := st1.messages ++
                [{ id := "error-" ++ toString now, isUser := false,
                   text := "Failed to create session. Please try connecting to the workspace again.",
                   timestamp := now }] }
        | Except.ok sessionData =>
            let systemMessage : ChatMessage :=
              { id := "system-" ++ toString now, isUser := false,
                text := "Created new session: " ++ sessionData.name, timestamp := now }
            let st2 :=
              { st1 with messages := st1.messages ++ [systemMessage]
                         sessionId := some sessionData.sid }
            applyQueryOutcome queryOutcome now nows sufs st2
    else applyQueryOutcome queryOutcome now nows sufs st1

/-! ## Session lifecycle (`loadSessionMessages`, `fetchSessionInfo`,
`handleSessionSelect`) -/

/-- The `query_result` field of a persisted session message. -/
structure PersistedQueryResult where
  is_conversational : Bool := false
  is_multi_query : Bool := false
  is_why_analysis : Bool := false
  sql : Option String := none
  results : Option (List Row) := none
  error : Option String := none
  pagination : Option PaginationInfo := none
  tables : Option (List TableInfo) := none
  analysis_type : String := ""
deriving DecidableEq

/-- One persisted message returned by `getSessionMessages`. -/
structure PersistedMsg where
  mid : Option String := none
  role : String
  content : String
  created_at : Option Nat := none
  query_result : Option PersistedQueryResult := none
deriving DecidableEq

/-- Convert one persisted message to a `ChatMessage` (the body of the
`sessionMessages.map` in `loadSessionMessages`).  Note that the
`sqlResult` and `analysisResult` conditions are independent: a persisted
record carrying both a truthy `sql` and a `tables` array yields a turn
with BOTH payloads populated.  The random part of the fallback id is
elided (ids are not claimed unique here). -/
def convertMessage (now : Nat) (msg : PersistedMsg) : ChatMessage :=
  let queryType : Option String :=
    match msg.query_result with
    | none => none
    | some qr =>
        if qr.is_conversational then some "conversational"
        else if qr.is_multi_query || qr.is_why_analysis then some "analysis"
        else if truthyStr qr.sql then some "sql"
        else none
  { id := jsOr msg.mid ("msg-" ++ toString now)
    isUser := msg.role = "user"
    text := msg.content
    timestamp := msg.created_at.getD now
    query_type := queryType
    sqlResult :=
      match msg.query_result with
      | some qr =>
          if truthyStr qr.sql then
            some { sql := jsOr qr.sql ""
                   data := qr.results
                   error := qr.error
                   pagination := qr.pagination
                   table_id := qr.pagination.map (fun p => p.table_id) }
          else none
      | none => none
    analysisResult :=
      match msg.query_result with
      | some qr =>
          match qr.tables with
          | some ts => some { tables := ts, analysis_type := qr.analysis_type }
          | none => none
      | none => none }

/-- `loadSessionMessages`: the transcript that replaces the current one
after the `getSessionMessages` outcome settles.  A non-empty fetch yields
the converted turns plus a loaded notice; an empty fetch yields the
welcome turn plus a loaded notice; a failed fetch yields a single
failure notice. -/
def loadSessionMessages (outcome : Except String (List PersistedMsg)) (now : Nat) :
    List ChatMessage :=
  match outcome with
  | Except.ok sessionMessages =>
      let convertedMessages := sessionMessages.map (convertMessage now)
      if convertedMessages.length > 0 then
        convertedMessages ++
          [{ id := "system-" ++ toString now, isUser := false,
             text := "Loaded " ++ toString convertedMessages.length ++ " messages from session",
             timestamp := now }]
      else
        [welcomeMessage now,
         { id := "system-" ++ toString now, isUser := false,
           text := "Session loaded (no previous messages)", timestamp := now }]
  | Except.error _ =>
      [{ id := "error-loading", isUser := false,
         text := "Failed to load session messages. Starting with a fresh chat.",
         timestamp := now }]

/-- `fetchSessionInfo` with the `getSessionInfo` outcome supplied: stores
the info; appends a warning turn when the info is the fallback error
object; clears the session on a thrown failure (console log only — no
transcript entry is added in that branch). -/
def fetchSessionInfo (outcome : Except String SessionInfo) (now : Nat)
    (st : ChatState) : ChatState :=
  if truthyStr st.sessionId = false then st
  else
    match outcome with
    | Except.ok info =>
        let st1 := { st with sessionInfo := some info }
        if info.error then
          { st1 with messages := st1.messages ++
              [{ id := "session-error-" ++ toString now, isUser := false,
                 text := "Warning: " ++ info.description, timestamp := now }] }
        else st1
    | Except.error _ => { st with sessionId := none, sessionInfo := none }

/-- `handleSessionSelect`: set the session id, show the loading
placeholder, replace the transcript with the fetched one, then refresh
the session info. -/
def handleSessionSelect (selectedSessionId : String)
    (msgOutcome : Except String (List PersistedMsg))
    (infoOutcome : Except String SessionInfo) (now : Nat) (st : ChatState) : ChatState :=
  let st1 :=
    { st with sessionId := some selectedSessionId
              messages := [{ id := "loading", isUser := false,
                             text := "Loading session messages...", timestamp := now }] }
  let st2 := { st1 with messages := loadSessionMessages msgOutcome now }
  fetchSessionInfo infoOutcome now st2

/-- Iterated submits: one `SubmitStep` bundles the input and the settled
boundary-call outcomes of one `handleSendMessage` invocation. -/
structure SubmitStep where
  input : String
  createOutcome : Except String SessionData
  queryOutcome : Except String ExecuteQueryResult
  now : Nat
  nows : Nat → Nat
  sufs : Nat → String

/-- Run a sequence of submits in order. -/
def runSubmits (workspaceId : Option String) (st : ChatState) :
    List SubmitStep → ChatState
  | [] => st
  | s :: rest =>
      runSubmits workspaceId
        (handleSendMessage workspaceId s.createOutcome s.queryOutcome s.now s.nows s.sufs
          st s.input) rest

/-! ## Concrete instances used by witnesses and counterexamples -/

/-- A sibling table with its own id, untouched by page changes aimed at "t1". -/
def demoTable2 : TableInfo :=
  { name := "by region", description := "d2", sql := "SELECT 2", results := [["b"]],
    row_count := 1, table_id := some "t2" }

/-- The table a demo page change targets. -/
def demoTable1 : TableInfo :=
  { name := "by month", description := "d1", sql := "SELECT 1", results := [["a"]],
    row_count := 1, table_id := some "t1" }

/-- An assistant turn holding an analysis result with two tables. -/
def demoAnalysisMsg : ChatMessage :=
  { id := "m1", isUser := false, text := "analysis", timestamp := 0,
    query_type := some "analysis",
    analysisResult := some { tables := [demoTable1, demoTable2], analysis_type := "comparative" } }

/-- A second, unrelated turn. -/
def demoOtherMsg : ChatMessage :=
  { id := "m0", isUser := true, text := "question", timestamp := 0 }

/-- A connected state whose transcript holds the two demo turns. -/
def demoAnalysisState : ChatState :=
  { messages := [demoOtherMsg, demoAnalysisMsg], sessionId := some "s1" }

/-- A successful pagination response carrying a rotated table id. -/
def demoResp : PagResponse :=
  { data := [["c"]],
    pagination := some { table_id := "t1b", current_page := 2, total_pages := 3,
                         total_rows := 5, page_size := 2 } }

/-- An assistant turn holding a sql result addressed by table id "t1". -/
def demoSqlMsg : ChatMessage :=
  { id := "m2", isUser := false, text := "sql", timestamp := 0,
    query_type := some "sql",
    sqlResult := some { sql := "SELECT 1", data := some [["a"]], table_id := some "t1" } }

/-- A connected state whose transcript holds the sql demo turn. -/
def demoSqlState : ChatState :=
  { messages := [demoSqlMsg], sessionId := some "s1" }

/-- Pagination metadata whose `table_id` is the empty string — present,
but falsy for the `||` fallback in `handlePageChange`. -/
def pageCexResp : PagResponse :=
  { data := [["r"]],
    pagination := some { table_id := "", current_page := 2, total_pages := 3,
                         total_rows := 5, page_size := 2 } }

/-- A resultless assistant turn (no sql / analysis payload). -/
def demoPlainMsg : ChatMessage :=
  { id := "m3", isUser := false, text := "hello", timestamp := 0 }

/-- A connected state whose only turn is resultless. -/
def demoPlainState : ChatState :=
  { messages := [demoPlainMsg], sessionId := some "s1" }

/-- A persisted query result carrying BOTH a truthy `sql` and a `tables`
array. -/
def bothCexQr : PersistedQueryResult :=
  { sql := some "SELECT 1", tables := some [] }

/-- A persisted assistant message whose `query_result` is `bothCexQr`. -/
def bothCexMsg : PersistedMsg :=
  { role := "assistant", content := "r", query_result := some bothCexQr }

/-- A resolver response of type `analysis` with two tables lacking ids. -/
def analysisCexResult : ExecuteQueryResult :=
  { query_type := some "analysis"
    tables := [{ name := "a", description := "", sql := "", results := [], row_count := 0 },
               { name := "b", description := "", sql := "", results := [], row_count := 0 }]
    analysis_type := "causal" }

/-- A resolver response with no `query_type` discriminant at all. -/
def unknownResult : ExecuteQueryResult :=
  { query_type := none, text := some "plain answer" }

/-- A minimal successful resolver response used by submit scenarios. -/
def submitCexQuery : ExecuteQueryResult :=
  { text := some "ok" }

/-- One concrete successful submit step (active session, so the
`createOutcome` is never consulted). -/
def demoStep : SubmitStep :=
  { input := "hello", createOutcome := Except.error "unused",
    queryOutcome := Except.ok submitCexQuery, now := 1,
    nows := fun _ => 1, sufs := fun _ => "a" }

/-- A persisted user message with no query result. -/
def c9persisted : PersistedMsg :=
  { role := "user", content := "q" }

/-- Whether a turn is one of the problem notices the session lifecycle
can produce (the load-failure notice or an info warning). -/
def problemNotice (m : ChatMessage) : Bool :=
  (m.text == "Failed to load session messages. Starting with a fresh chat.")
  || (m.text.take 9 == "Warning: ")

/-! ## Helper lemmas -/

/-- A map that fixes every element of a list fixes the list. -/
theorem map_fix_of_mem {α : Type} (f : α → α) :
    ∀ l : List α, (∀ x ∈ l, f x = x) → l.map f = l
  | [], _ => rfl
  | a :: as, h => by
      simp only [List.map_cons]
      rw [h a (by simp), map_fix_of_mem f as (fun x hx => h x (by simp [hx]))]

/-- Success branch of `handlePageChange` maps the transcript in place. -/
theorem handlePageChange_ok_messages (st : ChatState) (messageId tableId : String)
    (newPage : Nat) (resp : PagResponse) (now : Nat)
    (hsess : truthyStr st.sessionId = true) (htid : tableId ≠ "") :
    (handlePageChange st messageId tableId newPage (Except.ok resp) now).messages
      = st.messages.map (updateMessageForPage messageId tableId resp) := by
  have hc : ¬ (truthyStr st.sessionId = false ∨ tableId = "") := by
    simp [hsess, htid]
  simp [handlePageChange, hc]

/-- Failure branch of `handlePageChange` appends exactly one error turn. -/
theorem handlePageChange_error_messages (st : ChatState) (messageId tableId : String)
    (newPage : Nat) (emsg : String) (now : Nat)
    (hsess : truthyStr st.sessionId = true) (htid : tableId ≠ "") :
    (handlePageChange st messageId tableId newPage (Except.error emsg) now).messages
      = st.messages ++
        [{ id := "pagination-error-" ++ toString now, isUser := false,
           text := "Error loading page " ++ toString newPage ++ ": " ++ emsg,
           timestamp := now }] := by
  have hc : ¬ (truthyStr st.sessionId = false ∨ tableId = "") := by
    simp [hsess, htid]
  simp [handlePageChange, hc]

/-- `updateMessageForPage` fixes turns whose id differs from the target. -/
theorem updateMessageForPage_ne (messageId tableId : String) (resp : PagResponse)
    (msg : ChatMessage) (h : msg.id ≠ messageId) :
    updateMessageForPage messageId tableId resp msg = msg := by
  simp [updateMessageForPage, h]

/-- `updateMessageForPage` on the targeted analysis turn maps its tables. -/
theorem updateMessageForPage_analysis (messageId tableId : String) (resp : PagResponse)
    (msg : ChatMessage) (ar : AnalysisResultData)
    (hid : msg.id = messageId) (hsql : msg.sqlResult = none)
    (hana : msg.analysisResult = some ar) :
    updateMessageForPage messageId tableId resp msg
      = { msg with analysisResult := some { ar with tables := ar.tables.map (updateTableForPage tableId resp) } } := by
  simp [updateMessageForPage, hid, hsql, hana]

/-- `updateMessageForPage` on the targeted sql turn overwrites the payload. -/
theorem updateMessageForPage_sql (messageId tableId : String) (resp : PagResponse)
    (msg : ChatMessage) (sr : SqlResultData)
    (hid : msg.id = messageId) (hsql : msg.sqlResult = some sr) :
    updateMessageForPage messageId tableId resp msg
      = { msg with sqlResult := some { sr with data := some resp.data, pagination := resp.pagination, table_id := some (currentTableIdOf resp tableId) } } := by
  simp [updateMessageForPage, hid, hsql]

/-- `updateTableForPage` fixes tables whose id differs from the target. -/
theorem updateTableForPage_ne (tableId : String) (resp : PagResponse)
    (t : TableInfo) (h : t.table_id ≠ some tableId) :
    updateTableForPage tableId resp t = t := by
  simp [updateTableForPage, h]

/-! ## Claim theorems: pagination coordinator -/

/-- C1: applying a successful page change to a turn holding an
`analysis_result` maps the transcript in place; every turn whose id
differs from the target is unchanged; the targeted analysis turn only has
its `tables` mapped; and every table whose `table_id` differs from the
requested one is left completely unchanged. -/
theorem updateTurnResult_sibling_frame
    (st : ChatState) (messageId tableId : String) (newPage : Nat)
    (resp : PagResponse) (now : Nat)
    (hsess : truthyStr st.sessionId = true) (htid : tableId ≠ "") :
    (handlePageChange st messageId tableId newPage (Except.ok resp) now).messages
        = st.messages.map (updateMessageForPage messageId tableId resp)
    ∧ (∀ msg : ChatMessage, msg.id ≠ messageId →
        updateMessageForPage messageId tableId resp msg = msg)
    ∧ (∀ msg : ChatMessage, ∀ ar : AnalysisResultData,
        msg.id = messageId → msg.sqlResult = none → msg.analysisResult = some ar →
        updateMessageForPage messageId tableId resp msg
          = { msg with analysisResult := some { ar with tables := ar.tables.map (updateTableForPage tableId resp) } })
    ∧ (∀ t : TableInfo, t.table_id ≠ some tableId →
        updateTableForPage tableId resp t = t) :=
  ⟨handlePageChange_ok_messages st messageId tableId newPage resp now hsess htid,
   fun msg h => updateMessageForPage_ne messageId tableId resp msg h,
   fun msg ar hid hsql hana =>
     updateMessageForPage_analysis messageId tableId resp msg ar hid hsql hana,
   fun t h => updateTableForPage_ne tableId resp t h⟩

/-- Witness for C1: a concrete page change against table "t1" of the demo
analysis turn maps the transcript in place, and the sibling table "t2" is
untouched by the table updater. -/
theorem updateTurnResult_sibling_frame_witness :
    ((handlePageChange demoAnalysisState "m1" "t1" 2 (Except.ok demoResp) 9).messages
        = demoAnalysisState.messages.map (updateMessageForPage "m1" "t1" demoResp))
    ∧ updateTableForPage "t1" demoResp demoTable2 = demoTable2
    ∧ updateMessageForPage "m1" "t1" demoResp demoOtherMsg = demoOtherMsg := by
  have h := updateTurnResult_sibling_frame demoAnalysisState "m1" "t1" 2 demoResp 9
    (by decide) (by decide)
  exact ⟨h.1, h.2.2.2 demoTable2 (by decide), h.2.1 demoOtherMsg (by decide)⟩

/-- C7: a failed page change appends exactly one assistant turn whose
text reports the requested page and the error; every pre-existing turn
(in particular the targeted one and its table data) is unchanged. -/
theorem changePage_failure_preserves
    (st : ChatState) (messageId tableId : String) (newPage : Nat)
    (emsg : String) (now : Nat)
    (hsess : truthyStr st.sessionId = true) (htid : tableId ≠ "") :
    (handlePageChange st messageId tableId newPage (Except.error emsg) now).messages
        = st.messages ++
          [{ id := "pagination-error-" ++ toString now, isUser := false,
             text := "Error loading page " ++ toString newPage ++ ": " ++ emsg,
             timestamp := now }]
    ∧ (handlePageChange st messageId tableId newPage (Except.error emsg) now).messages.length
        = st.messages.length + 1 := by
  have h := handlePageChange_error_messages st messageId tableId newPage emsg now hsess htid
  exact ⟨h, by rw [h]; simp⟩

/-- Witness for C7: a concrete failing page change against the demo sql
state appends precisely the error turn for page 4. -/
theorem changePage_failure_preserves_witness :
    (handlePageChange demoSqlState "m2" "t1" 4 (Except.error "boom") 9).messages
        = demoSqlState.messages ++
          [{ id := "pagination-error-9", isUser := false,
             text := "Error loading page 4: boom", timestamp := 9 }]
    ∧ (handlePageChange demoSqlState "m2" "t1" 4 (Except.error "boom") 9).messages.length
        = demoSqlState.messages.length + 1 := by
  have h := changePage_failure_preserves demoSqlState "m2" "t1" 4 "boom" 9
    (by decide) (by decide)
  exact h

/-- C10: a successful page change never adds a result payload: the
per-turn updater fixes every turn that holds neither payload, and when
every turn matching the requested id is payload-free the whole transcript
is unchanged. -/
theorem changePage_resultless_noop
    (st : ChatState) (messageId tableId : String) (newPage : Nat)
    (resp : PagResponse) (now : Nat)
    (hsess : truthyStr st.sessionId = true) (htid : tableId ≠ "") :
    (∀ msg : ChatMessage, msg.sqlResult = none → msg.analysisResult = none →
       updateMessageForPage messageId tableId resp msg = msg)
    ∧ ((∀ msg ∈ st.messages, msg.id = messageId →
          msg.sqlResult = none ∧ msg.analysisResult = none) →
       (handlePageChange st messageId tableId newPage (Except.ok resp) now).messages
         = st.messages) := by
  constructor
  · intro msg hsql hana
    by_cases hid : msg.id = messageId
    · simp [updateMessageForPage, hid, hsql, hana]
    · exact updateMessageForPage_ne messageId tableId resp msg hid
  · intro hall
    rw [handlePageChange_ok_messages st messageId tableId newPage resp now hsess htid]
    apply map_fix_of_mem
    intro msg hmem
    by_cases hid : msg.id = messageId
    · obtain ⟨hsql, hana⟩ := hall msg hmem hid
      simp [updateMessageForPage, hid, hsql, hana]
    · exact updateMessageForPage_ne messageId tableId resp msg hid

/-- Witness for C10: a successful page change against the resultless demo
turn leaves the whole transcript unchanged. -/
theorem changePage_resultless_noop_witness :
    (handlePageChange demoPlainState "m3" "t1" 2 (Except.ok demoResp) 9).messages
      = demoPlainState.messages := by
  have h := changePage_resultless_noop demoPlainState "m3" "t1" 2 demoResp 9
    (by decide) (by decide)
  exact h.2 (by decide)

/-- C5-counterexample: the response's pagination is present but its
`table_id` is the empty string; the stored table identifier stays the
caller's "t1" instead of the response's value, so the response id does
not supersede the caller's even though it is present. -/
theorem changePage_supersede_cex :
    pageCexResp.pagination.map (fun p => p.table_id) = some ""
    ∧ (handlePageChange demoSqlState "m2" "t1" 2 (Except.ok pageCexResp) 7).messages.map
        (fun m => m.sqlResult.map (fun r => r.table_id)) = [some (some "t1")]
    ∧ ("t1" : String) ≠ "" := by
  refine ⟨rfl, ?_, by decide⟩
  decide

/-- C5-amended: a successful page change keeps the transcript length,
maps the transcript in place, overwrites the targeted sql turn's rows /
pagination / table id, and the response's `pagination.table_id`
supersedes the caller's exactly when it is present and non-empty. -/
theorem changePage_success_applies
    (st : ChatState) (messageId tableId : String) (newPage : Nat)
    (resp : PagResponse) (now : Nat)
    (hsess : truthyStr st.sessionId = true) (htid : tableId ≠ "") :
    (handlePageChange st messageId tableId newPage (Except.ok resp) now).messages.length
        = st.messages.length
    ∧ (handlePageChange st messageId tableId newPage (Except.ok resp) now).messages
        = st.messages.map (updateMessageForPage messageId tableId resp)
    ∧ (∀ msg : ChatMessage, ∀ sr : SqlResultData,
        msg.id = messageId → msg.sqlResult = some sr →
        updateMessageForPage messageId tableId resp msg
          = { msg with sqlResult := some { sr with data := some resp.data, pagination := resp.pagination, table_id := some (currentTableIdOf resp tableId) } })
    ∧ (∀ pag : PaginationInfo, resp.pagination = some pag → pag.table_id ≠ "" →
        currentTableIdOf resp tableId = pag.table_id) := by
  have hmap := handlePageChange_ok_messages st messageId tableId newPage resp now hsess htid
  refine ⟨by rw [hmap]; simp, hmap, ?_, ?_⟩
  · intro msg sr hid hsql
    exact updateMessageForPage_sql messageId tableId resp msg sr hid hsql
  · intro pag hpag hne
    simp [currentTableIdOf, hpag, hne]

/-- Witness for C5: the concrete page change against the demo sql turn
stores the rotated id "t1b" carried by the response's pagination, keeps
the transcript length, and appends nothing. -/
theorem changePage_success_applies_witness :
    (handlePageChange demoSqlState "m2" "t1" 2 (Except.ok demoResp) 9).messages.length
        = demoSqlState.messages.length
    ∧ currentTableIdOf demoResp "t1" = "t1b" := by
  have h := changePage_success_applies demoSqlState "m2" "t1" 2 demoResp 9
    (by decide) (by decide)
  refine ⟨h.1, ?_⟩
  have h4 := h.2.2.2 { table_id := "t1b", current_page := 2, total_pages := 3,
                       total_rows := 5, page_size := 2 } (by decide) (by decide)
  exact h4

/-! ## String and index helper lemmas -/

/-- Appending to a common left part is cancellative for strings. -/
theorem string_append_left_cancel (a b c : String) : a ++ b = a ++ c ↔ b = c := by
  constructor
  · intro h
    have hd : a.data ++ b.data = a.data ++ c.data := by
      have := congrArg String.data h
      simpa [String.data_append] using this
    exact String.ext (List.append_cancel_left hd)
  · intro h
    rw [h]

/-- A synthesized table id is never the empty string. -/
theorem synthId_ne_empty (n : Nat) (s : String) : synthId n s ≠ "" := by
  intro h
  have hlen := congrArg String.length h
  simp [synthId, String.length_append] at hlen
  exact absurd hlen.1.1.1 (by decide)

/-- Two ids synthesized at the same timestamp agree exactly when their
random suffixes agree. -/
theorem synthId_same_now (n : Nat) (s1 s2 : String) :
    synthId n s1 = synthId n s2 ↔ s1 = s2 := by
  unfold synthId
  rw [show ("table-" ++ toString n ++ "-" ++ s1) = (("table-" ++ toString n ++ "-") ++ s1) by
        simp [String.append_assoc],
      show ("table-" ++ toString n ++ "-" ++ s2) = (("table-" ++ toString n ++ "-") ++ s2) by
        simp [String.append_assoc]]
  exact string_append_left_cancel _ s1 s2

/-- The JS fallback `a || b` is non-empty whenever the fallback is. -/
theorem jsOr_ne_empty (a : Option String) (b : String) (hb : b ≠ "") : jsOr a b ≠ "" := by
  cases a with
  | none => simpa [jsOr] using hb
  | some s =>
      by_cases hs : s = "" <;> simp [jsOr, hs, hb]

/-- Every element of `mapWithIdx f i l` satisfies any property that all
outputs of `f` satisfy. -/
theorem mapWithIdx_mem_prop (f : Nat → TableInfo → TableInfo) (P : TableInfo → Prop)
    (hf : ∀ i t, P (f i t)) :
    ∀ (i : Nat) (l : List TableInfo), ∀ t ∈ mapWithIdx f i l, P t
  | _, [], t, ht => absurd ht (by simp [mapWithIdx])
  | i, a :: as, t, ht => by
      simp only [mapWithIdx, List.mem_cons] at ht
      rcases ht with h | h
      · rw [h]; exact hf i a
      · exact mapWithIdx_mem_prop f P hf (i + 1) as t h

/-! ## Claim theorems: transcript replacement (`replaceAll`) -/

/-- C4-counterexample: loading a session with no persisted messages
leaves TWO turns (the welcome turn plus a loaded notice), not exactly
one, so the transcript is not the single welcome turn the claim states. -/
theorem replaceAll_empty_cex :
    (loadSessionMessages (Except.ok []) 5).length = 2
    ∧ (2 : Nat) ≠ 1 := ⟨rfl, by decide⟩

/-- C4-amended: loading a session with no persisted messages yields a
non-empty transcript of exactly two turns whose first turn is the
synthetic welcome message. -/
theorem replaceAll_empty_transcript (now : Nat) :
    (loadSessionMessages (Except.ok []) now).length = 2
    ∧ (loadSessionMessages (Except.ok []) now).head? = some (welcomeMessage now)
    ∧ 0 < (loadSessionMessages (Except.ok []) now).length :=
  ⟨rfl, rfl, Nat.succ_pos 1⟩

/-- Witness for C4-amended at a concrete timestamp. -/
theorem replaceAll_empty_transcript_witness :
    (loadSessionMessages (Except.ok []) 5).head? = some (welcomeMessage 5) :=
  (replaceAll_empty_transcript 5).2.1

/-! ## Claim theorems: result classification -/

/-- C6-counterexample: a resolver analysis response with two tables
lacking `table_id`, finalized when `Date.now()` returns the same
millisecond and `Math.random()` yields the same suffix for both
iterations, assigns the SAME synthesized id to both tables — the claimed
distinctness fails. -/
theorem synth_table_id_cex :
    analysisCexResult.tables.map (fun t => t.table_id) = [none, none]
    ∧ ((finalizeBotMessage analysisCexResult 7 (fun _ => 7) (fun _ => "abc")).analysisResult.map
        (fun ar => ar.tables.map (fun t => t.table_id)))
      = some [some "table-7-abc", some "table-7-abc"] := ⟨rfl, rfl⟩

/-- C6-amended: for an analysis response every finalized table carries a
non-empty `table_id` (synthesized when the resolver's was missing or
empty), but distinctness of two ids synthesized in the same millisecond
holds exactly when their random suffixes differ — uniqueness is only as
strong as the `Date.now()` / `Math.random()` oracles. -/
theorem analysis_table_ids_nonempty
    (result : ExecuteQueryResult) (now : Nat) (nows : Nat → Nat) (sufs : Nat → String)
    (hq : result.query_type = some "analysis") :
    (∃ ar : AnalysisResultData,
        (finalizeBotMessage result now nows sufs).analysisResult = some ar
        ∧ ar.tables = mapWithIdx (withTableId nows sufs) 0 result.tables
        ∧ ∀ t ∈ ar.tables, ∃ s : String, t.table_id = some s ∧ s ≠ "")
    ∧ (∀ (n : Nat) (s1 s2 : String), synthId n s1 = synthId n s2 ↔ s1 = s2) := by
  constructor
  · refine ⟨{ tables := mapWithIdx (withTableId nows sufs) 0 result.tables,
              analysis_type := result.analysis_type }, ?_, rfl, ?_⟩
    · simp [finalizeBotMessage, hq]
    · apply mapWithIdx_mem_prop (withTableId nows sufs)
        (fun t => ∃ s : String, t.table_id = some s ∧ s ≠ "")
      intro i t
      exact ⟨jsOr t.table_id (synthId (nows i) (sufs i)), rfl,
        jsOr_ne_empty _ _ (synthId_ne_empty (nows i) (sufs i))⟩
  · exact synthId_same_now

/-- Witness for C6-amended at the concrete analysis response: both
tables receive the non-empty id "table-7-abc", and the synthesized-id
equation at one timestamp reduces to equality of the suffixes. -/
theorem analysis_table_ids_nonempty_witness :
    (∃ ar : AnalysisResultData,
        (finalizeBotMessage analysisCexResult 7 (fun _ => 7) (fun _ => "abc")).analysisResult = some ar
        ∧ ar.tables = mapWithIdx (withTableId (fun _ => 7) (fun _ => "abc")) 0 analysisCexResult.tables
        ∧ ∀ t ∈ ar.tables, ∃ s : String, t.table_id = some s ∧ s ≠ "")
    ∧ (synthId 7 "abc" = synthId 7 "abd" ↔ ("abc" : String) = "abd") := by
  have h := analysis_table_ids_nonempty analysisCexResult 7 (fun _ => 7) (fun _ => "abc") rfl
  exact ⟨h.1, h.2 7 "abc" "abd"⟩

/-- C8-counterexample: a response with a missing `query_type` produces a
turn whose stored discriminant is still missing, not normalized to
"conversational" as the claim states. -/
theorem conversational_fallback_cex :
    (finalizeBotMessage unknownResult 2 (fun _ => 0) (fun _ => "x")).query_type = none
    ∧ (none : Option String) ≠ some "conversational" := ⟨rfl, by decide⟩

/-- C8-amended: when the discriminant is missing or unknown the turn
carries neither payload and its text falls back to the response's raw
text, but the stored discriminant remains the raw value, untouched. -/
theorem unknown_query_type_text_only
    (result : ExecuteQueryResult) (now : Nat) (nows : Nat → Nat) (sufs : Nat → String)
    (hq : result.query_type = none ∨
          ∃ s : String, result.query_type = some s
            ∧ s ≠ "conversational" ∧ s ≠ "sql" ∧ s ≠ "analysis") :
    (finalizeBotMessage result now nows sufs).sqlResult = none
    ∧ (finalizeBotMessage result now nows sufs).analysisResult = none
    ∧ (finalizeBotMessage result now nows sufs).text
        = jsOr result.text (jsOr result.message "Query executed successfully.")
    ∧ (finalizeBotMessage result now nows sufs).query_type = result.query_type := by
  have h1 : result.query_type ≠ some "sql" := by
    rcases hq with h | ⟨s, hs, _, hsql, _⟩
    · simp [h]
    · simp [hs]
      intro hcontra
      exact hsql hcontra
  have h2 : result.query_type ≠ some "analysis" := by
    rcases hq with h | ⟨s, hs, _, _, hana⟩
    · simp [h]
    · simp [hs]
      intro hcontra
      exact hana hcontra
  refine ⟨?_, ?_, ?_, ?_⟩ <;> simp [finalizeBotMessage, h1, h2]

/-- Witness for C8-amended at the discriminant-free response. -/
theorem unknown_query_type_text_only_witness :
    (finalizeBotMessage unknownResult 2 (fun _ => 0) (fun _ => "x")).sqlResult = none
    ∧ (finalizeBotMessage unknownResult 2 (fun _ => 0) (fun _ => "x")).analysisResult = none
    ∧ (finalizeBotMessage unknownResult 2 (fun _ => 0) (fun _ => "x")).text = "plain answer" := by
  have h := unknown_query_type_text_only unknownResult 2 (fun _ => 0) (fun _ => "x") (Or.inl rfl)
  exact ⟨h.1, h.2.1, by rw [h.2.2.1]; rfl⟩

/-! ## Claim theorems: result exclusivity -/

/-- A finalized assistant turn never carries both payloads: the sql and
analysis branches of the dispatcher are mutually exclusive. -/
theorem finalizeBotMessage_exclusive (result : ExecuteQueryResult) (now : Nat)
    (nows : Nat → Nat) (sufs : Nat → String) :
    ¬((finalizeBotMessage result now nows sufs).sqlResult.isSome = true
      ∧ (finalizeBotMessage result now nows sufs).analysisResult.isSome = true) := by
  by_cases h1 : result.query_type = some "sql"
  · simp [finalizeBotMessage, h1]
  · by_cases h2 : result.query_type = some "analysis"
    · simp [finalizeBotMessage, h1, h2]
    · simp [finalizeBotMessage, h1, h2]

/-- Every turn present after applying a query outcome is either an old
turn or satisfies payload exclusivity. -/
theorem applyQueryOutcome_exclusive (qo : Except String ExecuteQueryResult) (now : Nat)
    (nows : Nat → Nat) (sufs : Nat → String) (st : ChatState) :
    ∀ m ∈ (applyQueryOutcome qo now nows sufs st).messages,
      m ∈ st.messages
      ∨ ¬(m.sqlResult.isSome = true ∧ m.analysisResult.isSome = true) := by
  intro m hm
  cases qo with
  | ok result =>
      simp only [applyQueryOutcome, List.mem_append, List.mem_singleton] at hm
      rcases hm with h | h
      · exact Or.inl h
      · right; rw [h]; exact finalizeBotMessage_exclusive result now nows sufs
  | error e =>
      simp only [applyQueryOutcome, List.mem_append, List.mem_singleton] at hm
      rcases hm with h | h
      · exact Or.inl h
      · right; rw [h]; simp

/-- C2-counterexample: converting a persisted message whose
`query_result` carries both a truthy `sql` and a `tables` array yields a
turn with BOTH `sqlResult` and `analysisResult` populated. -/
theorem turn_exclusive_cex :
    (convertMessage 3 bothCexMsg).sqlResult.isSome = true
    ∧ (convertMessage 3 bothCexMsg).analysisResult.isSome = true := ⟨rfl, rfl⟩

/-- C2-amended: every turn a submit adds to the transcript has at most
one of the two payloads, and a turn converted from a persisted message
has at most one provided its persisted `query_result` does not carry both
a truthy `sql` and a `tables` array. -/
theorem turn_result_exclusive
    (w : Option String) (co : Except String SessionData)
    (qo : Except String ExecuteQueryResult)
    (now : Nat) (nows : Nat → Nat) (sufs : Nat → String)
    (st : ChatState) (input : String) :
    (∀ m ∈ (handleSendMessage w co qo now nows sufs st input).messages,
        m ∈ st.messages
        ∨ ¬(m.sqlResult.isSome = true ∧ m.analysisResult.isSome = true))
    ∧ (∀ (pm : PersistedMsg) (k : Nat),
        (∀ qr : PersistedQueryResult, pm.query_result = some qr →
            ¬(truthyStr qr.sql = true ∧ qr.tables.isSome = true)) →
        ¬((convertMessage k pm).sqlResult.isSome = true
          ∧ (convertMessage k pm).analysisResult.isSome = true)) := by
  constructor
  · intro m hm
    by_cases htrim : jsTrim input = ""
    · left
      simpa [handleSendMessage, htrim] using hm
    · by_cases hauto : truthyStr st.sessionId = false ∧ truthyStr w = true
      · cases co with
        | error e =>
            simp only [handleSendMessage, if_neg htrim, if_pos hauto,
              List.mem_append, List.mem_singleton] at hm
            rcases hm with (h | h) | h
            · exact Or.inl h
            · right; rw [h]; simp
            · right; rw [h]; simp
        | ok sd =>
            simp only [handleSendMessage, if_neg htrim, if_pos hauto] at hm
            have h2 := applyQueryOutcome_exclusive qo now nows sufs
              { st with
                messages := (st.messages ++
                  [{ id := toString now, isUser := true, text := input, timestamp := now }]) ++
                  [{ id := "system-" ++ toString now, isUser := false,
                     text := "Created new session: " ++ sd.name, timestamp := now }]
                sessionId := some sd.sid } m hm
            rcases h2 with h | h
            · simp only [List.mem_append, List.mem_singleton] at h
              rcases h with (h | h) | h
              · exact Or.inl h
              · right; rw [h]; simp
              · right; rw [h]; simp
            · exact Or.inr h
      · simp only [handleSendMessage, if_neg htrim, if_neg hauto] at hm
        have h2 := applyQueryOutcome_exclusive qo now nows sufs
          { st with
            messages := st.messages ++
              [{ id := toString now, isUser := true, text := input, timestamp := now }] } m hm
        rcases h2 with h | h
        · simp only [List.mem_append, List.mem_singleton] at h
          rcases h with h | h
          · exact Or.inl h
          · right; rw [h]; simp
        · exact Or.inr h
  · intro pm k hcond
    rcases hqr : pm.query_result with _ | qr
    · simp [convertMessage, hqr]
    · by_cases hsql : truthyStr qr.sql = true
      · rcases htab : qr.tables with _ | ts
        · simp [convertMessage, hqr, hsql, htab]
        · intro hboth
          exact hcond qr hqr ⟨hsql, by simp [htab]⟩
      · simp [convertMessage, hqr, hsql]

/-- Witness for C2-amended: applied to a concrete auto-creating submit,
the welcome turn of the initial transcript is recognized as an old turn
or exclusive, and the concrete conversion of a plain persisted user
message is exclusive. -/
theorem turn_result_exclusive_witness :
    (welcomeMessage 0 ∈ initialState.messages
      ∨ ¬((welcomeMessage 0).sqlResult.isSome = true
          ∧ (welcomeMessage 0).analysisResult.isSome = true))
    ∧ ¬((convertMessage 4 c9persisted).sqlResult.isSome = true
        ∧ (convertMessage 4 c9persisted).analysisResult.isSome = true) := by
  have h := turn_result_exclusive (some "w") (Except.ok { sid := "s", name := "n" })
    (Except.ok submitCexQuery) 1 (fun _ => 1) (fun _ => "a") initialState "hi"
  refine ⟨h.1 (welcomeMessage 0) ?_, h.2 c9persisted 4 (by intro qr hqr; cases hqr)⟩
  decide

/-! ## Claim theorems: transcript growth under submits -/

/-- With an active (truthy) session a successful submit appends exactly
the user turn and the finalized assistant turn, and leaves the session
id untouched. -/
theorem handleSendMessage_active_step (w : Option String) (co : Except String SessionData)
    (r : ExecuteQueryResult) (now : Nat) (nows : Nat → Nat) (sufs : Nat → String)
    (st : ChatState) (input : String)
    (hs : truthyStr st.sessionId = true) (hne : jsTrim input ≠ "") :
    (handleSendMessage w co (Except.ok r) now nows sufs st input).messages.length
        = st.messages.length + 2
    ∧ (handleSendMessage w co (Except.ok r) now nows sufs st input).sessionId
        = st.sessionId := by
  have hcond : ¬(truthyStr st.sessionId = false ∧ truthyStr w = true) := by
    simp [hs]
  constructor <;> simp [handleSendMessage, hne, hcond, applyQueryOutcome]

/-- Iterating successful submits from a truthy-session state grows the
transcript by exactly two turns per submit and preserves the session. -/
theorem runSubmits_active_length (w : Option String) :
    ∀ (steps : List SubmitStep) (st : ChatState),
      truthyStr st.sessionId = true →
      (∀ s ∈ steps, jsTrim s.input ≠ "" ∧ ∃ r, s.queryOutcome = Except.ok r) →
      (runSubmits w st steps).messages.length = st.messages.length + 2 * steps.length
      ∧ (runSubmits w st steps).sessionId = st.sessionId
  | [], st, _, _ => ⟨by simp [runSubmits], rfl⟩
  | s :: rest, st, hs, hsteps => by
      obtain ⟨hne, r, hr⟩ := hsteps s (by simp)
      have hunfold : runSubmits w st (s :: rest)
          = runSubmits w (handleSendMessage w s.createOutcome s.queryOutcome s.now s.nows
              s.sufs st s.input) rest := rfl
      rw [hr] at hunfold
      have hstep := handleSendMessage_active_step w s.createOutcome r s.now s.nows s.sufs
        st s.input hs hne
      have hrec := runSubmits_active_length w rest
        (handleSendMessage w s.createOutcome (Except.ok r) s.now s.nows s.sufs st s.input)
        (by rw [hstep.2]; exact hs)
        (fun x hx => hsteps x (by simp [hx]))
      refine ⟨?_, ?_⟩
      · rw [hunfold, hrec.1, hstep.1]
        simp only [List.length_cons]
        ring
      · rw [hunfold, hrec.2, hstep.2]

/-- C3-counterexample: one successful submit from the initial transcript
with a connected workspace and no session auto-creates a session and
appends THREE turns (user, session-created notice, assistant), so the
transcript has 4 turns, not 1 + 2 x 1 = 3. -/
theorem submit_length_cex :
    (handleSendMessage (some "w1") (Except.ok { sid := "s1", name := "S" })
        (Except.ok submitCexQuery) 1 (fun _ => 1) (fun _ => "a")
        initialState "hello").messages.length = 4
    ∧ (4 : Nat) ≠ 1 + 2 * 1 := ⟨rfl, by decide⟩

/-- C3-amended: starting from the initial transcript with an already
active session, N successful submits leave the transcript with exactly
1 + 2 x N turns (the extra session-created notice of the auto-creating
first submit is what the original claim missed). -/
theorem submit_seq_length (w : Option String) (sid : String) (steps : List SubmitStep)
    (hsid : sid ≠ "")
    (hsteps : ∀ s ∈ steps, jsTrim s.input ≠ "" ∧ ∃ r, s.queryOutcome = Except.ok r) :
    (runSubmits w { messages := [welcomeMessage 0], sessionId := some sid } steps).messages.length
      = 1 + 2 * steps.length := by
  have h := runSubmits_active_length w steps
    { messages := [welcomeMessage 0], sessionId := some sid }
    (by simp [truthyStr, hsid]) hsteps
  simpa using h.1

/-- Witness for C3-amended: one concrete successful submit in an active
session yields 1 + 2 = 3 turns. -/
theorem submit_seq_length_witness :
    (runSubmits (some "w1") { messages := [welcomeMessage 0], sessionId := some "s1" }
        [demoStep]).messages.length = 1 + 2 * 1 := by
  have h := submit_seq_length (some "w1") "s1" [demoStep] (by decide)
    (by
      intro s hs
      simp only [List.mem_singleton] at hs
      subst hs
      exact ⟨by decide, submitCexQuery, rfl⟩)
  simpa using h

/-! ## Claim theorems: session resolution -/

/-- C9-counterexample: selecting session "s9" where the message fetch
succeeds but the session-info fetch fails falls back to the no-session
state WITHOUT any transcript entry describing the problem: every turn of
the final transcript fails the problem-notice predicate. -/
theorem session_resolution_cex :
    ((handleSessionSelect "s9" (Except.ok [c9persisted]) (Except.error "gone") 4
        initialState).messages.all (fun m => !(problemNotice m))) = true
    ∧ (handleSessionSelect "s9" (Except.ok [c9persisted]) (Except.error "gone") 4
        initialState).sessionId = none := ⟨rfl, rfl⟩

/-- C9-amended: when both the message fetch and the session-info fetch
fail, the controller degrades to the no-session state and the transcript
is exactly the visible load-failure notice; a failing info fetch alone
clears the session silently. -/
theorem session_resolution_fallback (sid e1 e2 : String) (now : Nat) (st : ChatState)
    (hsid : sid ≠ "") :
    (handleSessionSelect sid (Except.error e1) (Except.error e2) now st).sessionId = none
    ∧ (handleSessionSelect sid (Except.error e1) (Except.error e2) now st).sessionInfo = none
    ∧ (handleSessionSelect sid (Except.error e1) (Except.error e2) now st).messages
        = [{ id := "error-loading", isUser := false,
             text := "Failed to load session messages. Starting with a fresh chat.",
             timestamp := now }]
    ∧ ((handleSessionSelect sid (Except.error e1) (Except.error e2) now st).messages.any
          problemNotice) = true := by
  have hs : truthyStr (some sid) = true := by simp [truthyStr, hsid]
  refine ⟨?_, ?_, ?_, ?_⟩ <;>
    simp [handleSessionSelect, loadSessionMessages, fetchSessionInfo, hs, problemNotice]

/-- Witness for C9-amended at a concrete stale session id. -/
theorem session_resolution_fallback_witness :
    (handleSessionSelect "s9" (Except.error "404") (Except.error "404") 4
        initialState).sessionId = none
    ∧ ((handleSessionSelect "s9" (Except.error "404") (Except.error "404") 4
        initialState).messages.any problemNotice) = true := by
  have h := session_resolution_fallback "s9" "404" "404" 4 initialState (by decide)
  exact ⟨h.1, h.2.2.2⟩
